import Mathlib

/-!
Verification development for the cluster-api-addon-provider-kubewarden
controllers.  The Go sources under internal/controller are shallowly
embedded: maps become association lists, Kubernetes API calls against the
management store become pure list operations, and calls against remote
workload clusters become per-cluster outcome oracles that stand for the
results the remote API would return.  Wall-clock fields
(LastTransitionTime) are elided.
-/

namespace Caapkw

/-- Association-list lookup, modelling Go map indexing (map[string]string). -/
def lookupKV : List (String × String) → String → Option String
  | [], _ => none
  | (k, v) :: rest, key => if k == key then some v else lookupKV rest key

/-- The durable installed-marker annotation key written on Cluster objects
(helpers.go, constant KubewardenInstalledAnnotation =
"caapkw.kubewarden.io/installed"). -/
def kubewardenInstalledKey : String := "caapkw.kubewarden.io/installed"

/-- HasAnnotation (helpers.go): true iff the object's annotation map has the
key; the value is never inspected.  A nil map yields false, which the empty
association list models. -/
def hasAnnotationKey (annos : List (String × String)) (key : String) : Bool :=
  (lookupKV annos key).isSome

/-- metav1.LabelSelectorOperator: the four operators a match-expression may
use. -/
inductive LabelSelectorOp where
  | opIn
  | opNotIn
  | opExists
  | opDoesNotExist
deriving DecidableEq, Repr

/-- metav1.LabelSelectorRequirement: one match-expression of a selector. -/
structure SelectorRequirementInput where
  key : String
  op : LabelSelectorOp
  values : List String
deriving DecidableEq, Repr

/-- metav1.LabelSelector: equality pairs plus set-based expressions. -/
structure LabelSelector where
  matchLabels : List (String × String)
  matchExpressions : List SelectorRequirementInput
deriving DecidableEq, Repr

/-- selection.Operator as used by the converted requirements: matchLabels
pairs become Equals requirements, expressions keep their operator. -/
inductive SelOp where
  | opEq
  | opIn
  | opNotIn
  | opExists
  | opDoesNotExist
deriving DecidableEq, Repr

/-- labels.Requirement (k8s.io/apimachinery/pkg/labels): an internal,
validated selector requirement. -/
structure Requirement where
  key : String
  op : SelOp
  values : List String
deriving DecidableEq, Repr

/-- labels.Requirement.Matches: Equals and In require the key to be present
with a value in the set; NotIn is satisfied by an absent key or a present
value outside the set; Exists and DoesNotExist test key presence only. -/
def Requirement.matches (r : Requirement) (ls : List (String × String)) : Bool :=
  match r.op with
  | .opEq | .opIn =>
    match lookupKV ls r.key with
    | some v => r.values.contains v
    | none => false
  | .opNotIn =>
    match lookupKV ls r.key with
    | some v => !(r.values.contains v)
    | none => true
  | .opExists => (lookupKV ls r.key).isSome
  | .opDoesNotExist => (lookupKV ls r.key).isNone

/-- The per-expression arm of metav1.LabelSelectorAsSelector: maps the
operator and performs labels.NewRequirement's arity validation (In and
NotIn need at least one value, Exists and DoesNotExist need none).  Label
key and value character-set validation is elided.  Returns none on a
validation error. -/
def exprToRequirement (e : SelectorRequirementInput) : Option Requirement :=
  match e.op with
  | .opIn => if e.values.isEmpty then none else some ⟨e.key, .opIn, e.values⟩
  | .opNotIn => if e.values.isEmpty then none else some ⟨e.key, .opNotIn, e.values⟩
  | .opExists => if e.values.isEmpty then some ⟨e.key, .opExists, e.values⟩ else none
  | .opDoesNotExist => if e.values.isEmpty then some ⟨e.key, .opDoesNotExist, e.values⟩ else none

/-- The expression loop of metav1.LabelSelectorAsSelector: convert each
expression, returning the first validation error (none) if any. -/
def exprsToRequirements : List SelectorRequirementInput → Option (List Requirement)
  | [] => some []
  | e :: rest =>
    match exprToRequirement e with
    | none => none
    | some r =>
      match exprsToRequirements rest with
      | none => none
      | some rs => some (r :: rs)

/-- metav1.LabelSelectorAsSelector for a non-nil selector: every matchLabels
pair (k, v) becomes the requirement k Equals v, then the converted
expressions are appended.  An empty selector yields no requirements and so
matches everything, exactly as labels.Everything() does. -/
def labelSelectorAsSelector (s : LabelSelector) : Option (List Requirement) :=
  match exprsToRequirements s.matchExpressions with
  | none => none
  | some ers =>
    some (s.matchLabels.map (fun kv => ⟨kv.1, .opEq, [kv.2]⟩) ++ ers)

/-- labels.Selector.Matches for the converted requirement list: all
requirements must hold (conjunction). -/
def selectorMatches (reqs : List Requirement) (ls : List (String × String)) : Bool :=
  reqs.all (fun r => r.matches ls)

/-- clusterv1.Cluster as this controller observes it: identity, labels, the
annotation map, the ControlPlaneReady status flag and the
ControlPlaneReadyCondition (conditions.IsTrue). -/
structure Cluster where
  name : String
  clusterNs : String
  labels : List (String × String)
  annos : List (String × String)
  controlPlaneReady : Bool
  controlPlaneReadyCond : Bool
deriving DecidableEq, Repr

/-- listClustersWithLabels (kubewardenaddon_controller.go): convert the
selector, then list the clusters of the given namespace that match it.  The
management store is modelled as the ordered list of all Cluster objects, and
the namespace-scoped, selector-filtered List as an order-preserving
filter. -/
def listClustersWithLabels (store : List Cluster) (ns : String)
    (selector : LabelSelector) : Option (List Cluster) :=
  match labelSelectorAsSelector selector with
  | none => none
  | some reqs =>
    some (store.filter (fun c => c.clusterNs == ns && selectorMatches reqs c.labels))

/-- getMatchingClusters (KubewardenPolicyReconciler): identical body —
convert the policy's ClusterSelector and list matching clusters of the
policy's namespace. -/
def getMatchingClusters (store : List Cluster) (pns : String)
    (selector : LabelSelector) : Option (List Cluster) :=
  listClustersWithLabels store pns selector

/-- Spec-side predicate (the claim's wording): every match-labels key/value
pair is present and equal on the candidate's label set. -/
def satisfiesMatchLabels (ls : List (String × String))
    (ml : List (String × String)) : Bool :=
  ml.all (fun kv =>
    match lookupKV ls kv.1 with
    | some v => v == kv.2
    | none => false)

/-- Spec-side predicate (the claim's wording): one match-expression holds of
a label set — In and NotIn compare the key's value against the value set
(NotIn also accepts an absent key, as the set-based selector semantics do),
Exists and DoesNotExist test key presence. -/
def satisfiesMatchExpression (ls : List (String × String))
    (e : SelectorRequirementInput) : Bool :=
  match e.op with
  | .opIn =>
    match lookupKV ls e.key with
    | some v => e.values.contains v
    | none => false
  | .opNotIn =>
    match lookupKV ls e.key with
    | some v => !(e.values.contains v)
    | none => true
  | .opExists => (lookupKV ls e.key).isSome
  | .opDoesNotExist => (lookupKV ls e.key).isNone

/-- A cluster passes the policy reconciler's readiness gate only when both
the ControlPlaneReady flag and the ControlPlaneReady condition hold
(reconcileNormal skips on !flag || !condition). -/
def policyClusterReady (c : Cluster) : Bool :=
  c.controlPlaneReady && c.controlPlaneReadyCond

/-- KubewardenPolicySpec, with the RawExtension settings modelled as the raw
byte string. -/
structure MatchConditionIn where
  name : String
  expression : String
deriving DecidableEq, Repr

/-- PolicyRule from api/v1alpha1: the rule shape of a KubewardenPolicy. -/
structure PolicyRule where
  apiGroups : List String
  apiVersions : List String
  resources : List String
  operations : List String
  scope : String
deriving DecidableEq, Repr

/-- KubewardenPolicySpec from api/v1alpha1. -/
structure KubewardenPolicySpec where
  clusterSelector : LabelSelector
  policyType : String
  policyName : String
  targetNamespace : String
  policyServer : String
  module : String
  rules : List PolicyRule
  mutating : Bool
  settings : String
  failurePolicy : String
  matchConditions : List MatchConditionIn
deriving DecidableEq, Repr

/-- admissionregistration RuleWithOperations as placed on the remote policy
spec; OperationType and ScopeType are string wrappers, modelled as String;
the remote scope pointer is an Option. -/
structure RuleWithOperations where
  operations : List String
  apiGroups : List String
  apiVersions : List String
  resources : List String
  scope : Option String
deriving DecidableEq, Repr

/-- admissionregistration MatchCondition on the remote policy spec. -/
structure RemoteMatchCondition where
  name : String
  expression : String
deriving DecidableEq, Repr

/-- policiesv1.PolicySpec: the remote Kubewarden policy spec fields this
controller writes. -/
structure RemotePolicySpec where
  policyServer : String
  module : String
  mutating : Bool
  rules : List RuleWithOperations
  failurePolicy : Option String
  settings : String
  matchConditions : List RemoteMatchCondition
deriving DecidableEq, Repr

/-- convertOperations: each operation string is wrapped into the remote
OperationType one-for-one. -/
def convertOperations (ops : List String) : List String :=
  ops.map (fun op => op)

/-- convertScope: an empty scope stays unset (nil pointer); any other value
is wrapped as a ScopeType pointer. -/
def convertScope (scope : String) : Option String :=
  if scope == "" then none else some scope

/-- The per-rule arm of buildPolicySpec's rule loop. -/
def ruleToRemote (rule : PolicyRule) : RuleWithOperations :=
  { operations := convertOperations rule.operations
    apiGroups := rule.apiGroups
    apiVersions := rule.apiVersions
    resources := rule.resources
    scope := convertScope rule.scope }

/-- buildPolicySpec (KubewardenPolicyReconciler): pure transform from the
KubewardenPolicy spec to the remote policy spec.  PolicyServer, Module and
Mutating are copied; each rule is mapped through the rule loop; FailurePolicy
is set only when non-empty; Settings are copied only when the raw bytes are
non-empty; MatchConditions are copied one-for-one by name and expression. -/
def buildPolicySpec (p : KubewardenPolicySpec) : RemotePolicySpec :=
  let spec0 : RemotePolicySpec :=
    { policyServer := p.policyServer
      module := p.module
      mutating := p.mutating
      rules := []
      failurePolicy := none
      settings := ""
      matchConditions := [] }
  let spec1 := { spec0 with rules := p.rules.map ruleToRemote }
  let spec2 :=
    if p.failurePolicy != "" then { spec1 with failurePolicy := some p.failurePolicy }
    else spec1
  let spec3 :=
    if p.settings.length > 0 then { spec2 with settings := p.settings }
    else spec2
  { spec3 with
      matchConditions := p.matchConditions.map
        (fun mc => { name := mc.name, expression := mc.expression }) }

/-- Modelled from the spec: the inverse conversion from the remote rule
representation back to a PolicyRule, needed to state the claimed round-trip
("converting to the remote rule representation and back"); an unset remote
scope reads back as the empty string.  The repository has no such function;
this one follows the spec's words. -/
def ruleFromRemote (r : RuleWithOperations) : PolicyRule :=
  { apiGroups := r.apiGroups
    apiVersions := r.apiVersions
    resources := r.resources
    operations := r.operations
    scope := r.scope.getD "" }

/-- Outcome of the remote Get for the existing policy object inside the
deploy step. -/
inductive GetOutcome where
  | found
  | notFound
  | getFailed
deriving DecidableEq, Repr

/-- Outcome of the remote Delete of the policy object. -/
inductive DeleteOutcome where
  | ok
  | notFound
  | failed (msg : String)
deriving DecidableEq, Repr

/-- Per-cluster oracle for the policy reconciler's remote effects: remote
client acquisition, the Get/Create/Update of the deploy step, the status
Get behind isPolicyActive (none models a Get error, some b the reported
PolicyStatus being active or not), and the Delete outcome. -/
structure PolicyEnv where
  clientOk : Bool
  remoteGet : GetOutcome
  createOk : Bool
  updateOk : Bool
  activeGet : Option Bool
  policyDelete : DeleteOutcome
deriving DecidableEq, Repr

/-- deployClusterAdmissionPolicy: Get the existing ClusterAdmissionPolicy;
not-found leads to Create, found leads to Update of the spec; any API error
is returned.  Returns the error message, none on success. -/
def deployClusterAdmissionPolicy (env : PolicyEnv) : Option String :=
  match env.remoteGet with
  | .notFound => if env.createOk then none else some "creating policy failed"
  | .getFailed => some "getting existing policy failed"
  | .found => if env.updateOk then none else some "updating policy failed"

/-- deployAdmissionPolicy: same Get/Create/Update sequence against the
namespace-scoped AdmissionPolicy keyed by (policyName, targetNamespace). -/
def deployAdmissionPolicy (env : PolicyEnv) : Option String :=
  match env.remoteGet with
  | .notFound => if env.createOk then none else some "creating policy failed"
  | .getFailed => some "getting existing policy failed"
  | .found => if env.updateOk then none else some "updating policy failed"

/-- isPolicyActive: re-fetch the remote policy and compare its reported
PolicyStatus against the active sentinel. -/
def isPolicyActive (env : PolicyEnv) : Except String Bool :=
  match env.activeGet with
  | none => .error "getting policy status failed"
  | some b => .ok b

/-- DeployedPolicyStatus from api/v1alpha1 (LastTransitionTime elided). -/
structure DeployedPolicyStatus where
  clusterName : String
  clusterNamespace : String
  policyName : String
  policyType : String
  active : Bool
  message : String
deriving DecidableEq, Repr

/-- deployPolicy (KubewardenPolicyReconciler): build the base status record,
run the type-appropriate deploy, then verify activation; the record plus the
error (if any) are returned to the caller. -/
def deployPolicy (env : PolicyEnv) (p : KubewardenPolicySpec) (c : Cluster) :
    DeployedPolicyStatus × Option String :=
  let status0 : DeployedPolicyStatus :=
    { clusterName := c.name
      clusterNamespace := c.clusterNs
      policyName := p.policyName
      policyType := p.policyType
      active := false
      message := "" }
  let derr :=
    if p.policyType == "ClusterAdmissionPolicy" then deployClusterAdmissionPolicy env
    else deployAdmissionPolicy env
  match derr with
  | some e => ({ status0 with message := "Failed to deploy: " ++ e }, some e)
  | none =>
    match isPolicyActive env with
    | .error e => ({ status0 with message := "Failed to verify status: " ++ e }, some e)
    | .ok active =>
      ({ status0 with
          active := active
          message :=
            if active then "Policy successfully deployed and active"
            else "Policy deployed but not yet active" }, none)

/-- One iteration of reconcileNormal's per-cluster loop: skip (no record,
allReady := false) when the cluster is not ready, not marked installed, or
the remote client cannot be obtained; otherwise deploy and record.  The
second component is this cluster's contribution to allReady: false exactly
when the cluster was skipped or the deploy errored. -/
def policyClusterStep (p : KubewardenPolicySpec) (env : String → PolicyEnv)
    (c : Cluster) : Option DeployedPolicyStatus × Bool :=
  if !(policyClusterReady c) then (none, false)
  else if !(hasAnnotationKey c.annos kubewardenInstalledKey) then (none, false)
  else if !((env c.name).clientOk) then (none, false)
  else
    match deployPolicy (env c.name) p c with
    | (st, some e) => (some { st with active := false, message := e }, false)
    | (st, none) => (some st, true)

/-- Spec-side description of a per-cluster success in the policy
reconciler: the cluster is control-plane ready, carries the installed
marker, its remote client can be obtained, and the deploy plus activation
query finish without error.  Note that the reported activation value itself
is not part of this predicate. -/
def clusterDeployOk (p : KubewardenPolicySpec) (env : String → PolicyEnv)
    (c : Cluster) : Bool :=
  policyClusterReady c
    && hasAnnotationKey c.annos kubewardenInstalledKey
    && (env c.name).clientOk
    && (deployPolicy (env c.name) p c).2.isNone

/-- reconcileNormal's per-cluster loop: collect the deployed-policy records
in cluster order and conjoin the allReady contributions. -/
def policyClusterLoop (p : KubewardenPolicySpec) (env : String → PolicyEnv) :
    List Cluster → List DeployedPolicyStatus × Bool
  | [] => ([], true)
  | c :: rest =>
    let s := policyClusterStep p env c
    let r := policyClusterLoop p env rest
    (s.1.toList ++ r.1, s.2 && r.2)

/-- KubewardenPolicyStatus (matchingClusters entries reduced to the
name/namespace pair of the referenced cluster). -/
structure PolicyStatus where
  ready : Bool
  matchingClusters : List (String × String)
  deployedPolicies : List DeployedPolicyStatus
deriving DecidableEq, Repr

/-- Result of one policy reconcile pass. -/
inductive RecOutcome where
  | completed
  | requeueAfterSec (n : Nat)
  | errored (msg : String)
deriving DecidableEq, Repr

/-- reconcileNormal (KubewardenPolicyReconciler): select matching clusters
(selector errors abort with the error); with no match, persist ready=false
with no records and requeue after the default minute; otherwise set
matchingClusters, run the per-cluster loop, persist ready=allReady plus the
records, and requeue after five minutes.  A failing status update leaves the
persisted status at its previous value and returns the error. -/
def policyReconcileNormal (p : KubewardenPolicySpec) (pns : String)
    (prev : PolicyStatus) (store : List Cluster) (env : String → PolicyEnv)
    (statusUpdateOk : Bool) : PolicyStatus × RecOutcome :=
  match getMatchingClusters store pns p.clusterSelector with
  | none => (prev, .errored "invalid cluster selector")
  | some clusters =>
    if clusters.isEmpty then
      if statusUpdateOk then
        ({ prev with ready := false, deployedPolicies := [] }, .requeueAfterSec 60)
      else (prev, .errored "status update failed")
    else
      let st1 := { prev with
        matchingClusters := clusters.map (fun c : Cluster => (c.name, c.clusterNs)) }
      let run := policyClusterLoop p env clusters
      let st2 := { st1 with ready := run.2, deployedPolicies := run.1 }
      if statusUpdateOk then (st2, .requeueAfterSec 300)
      else (prev, .errored "status update failed")

/-- deletePolicy (KubewardenPolicyReconciler): delete the type-appropriate
remote policy object; a not-found result is success. -/
def deletePolicy (env : PolicyEnv) (p : KubewardenPolicySpec) : Option String :=
  if p.policyType == "ClusterAdmissionPolicy" then
    match env.policyDelete with
    | .ok => none
    | .notFound => none
    | .failed m => some m
  else
    match env.policyDelete with
    | .ok => none
    | .notFound => none
    | .failed m => some m

/-- reconcileDelete's per-cluster loop: clusters whose remote client cannot
be obtained are skipped (logged); for the rest the delete is attempted and
its error, if any, is only logged.  The returned list is the trace of
cluster names on which a delete was attempted. -/
def policyDeleteLoop (env : String → PolicyEnv) : List Cluster → List String
  | [] => []
  | c :: rest =>
    if (env c.name).clientOk then c.name :: policyDeleteLoop env rest
    else policyDeleteLoop env rest

/-- reconcileDelete (KubewardenPolicyReconciler): select the currently
matching clusters (selector errors abort with the error), then best-effort
delete the remote policy from each; the pass itself always completes without
error once selection succeeded. -/
def policyReconcileDelete (p : KubewardenPolicySpec) (pns : String)
    (store : List Cluster) (env : String → PolicyEnv) :
    RecOutcome × List String :=
  match getMatchingClusters store pns p.clusterSelector with
  | none => (.errored "invalid cluster selector", [])
  | some clusters => (.completed, policyDeleteLoop env clusters)

/-- A cluster passes the addon reconciler's readiness gate when the
ControlPlaneReady flag or the ControlPlaneReady condition holds
(reconcileNormal requeues on !flag && !condition). -/
def addonClusterReady (c : Cluster) : Bool :=
  c.controlPlaneReady || c.controlPlaneReadyCond

/-- Outcome of the remote namespace Create inside the addon install. -/
inductive CreateOutcome where
  | ok
  | alreadyExists
  | failed
deriving DecidableEq, Repr

/-- Per-cluster oracle for the addon reconciler's effects: remote client
acquisition, namespace creation, the CRD install, the two chart installs,
and the merge-patch of the cluster's annotations in the management store. -/
structure AddonEnv where
  clientOk : Bool
  nsCreate : CreateOutcome
  crdsOk : Bool
  controllerOk : Bool
  defaultsOk : Bool
  patchOk : Bool
deriving DecidableEq, Repr

/-- createKubewardenNamespace (helpers.go): create the fixed-name namespace;
an already-exists error is success. -/
def createKubewardenNamespace (e : AddonEnv) : Option String :=
  match e.nsCreate with
  | .ok => none
  | .alreadyExists => none
  | .failed => some "creating namespace failed"

/-- Association-list insert modelling the Go map write
annotations[key] = value. -/
def insertKV (m : List (String × String)) (key value : String) :
    List (String × String) :=
  match m with
  | [] => [(key, value)]
  | (k, v) :: rest =>
    if k == key then (k, value) :: rest else (k, v) :: insertKV rest key value

/-- The annotate-and-patch tail of the addon install: set the installed
marker to "true" on the cluster's annotation map. -/
def markInstalled (c : Cluster) : Cluster :=
  { c with annos := insertKV c.annos kubewardenInstalledKey "true" }

/-- Result of one addon reconcile pass over the matched clusters: the
(updated) matched clusters as persisted in the management store, the
outcome, and the trace of cluster names on which install steps were
attempted (everything from remote client acquisition on). -/
structure AddonRunResult where
  clusters : List Cluster
  outcome : RecOutcome
  trace : List String
deriving DecidableEq, Repr

/-- reconcileNormal (KubewardenAddonReconciler): walk the matched clusters
in order.  A not-ready cluster requeues the whole pass after the default
minute; an already-annotated cluster returns success for the whole pass; any
failing install step (remote client, namespace, CRDs, controller chart,
defaults chart, annotation patch) returns that error for the whole pass;
otherwise the cluster is annotated with the installed marker and the loop
continues. -/
def addonReconcileNormal (env : String → AddonEnv) :
    List Cluster → AddonRunResult
  | [] => ⟨[], .completed, []⟩
  | c :: rest =>
    if !c.controlPlaneReady && !c.controlPlaneReadyCond then
      ⟨c :: rest, .requeueAfterSec 60, []⟩
    else if hasAnnotationKey c.annos kubewardenInstalledKey then
      ⟨c :: rest, .completed, []⟩
    else
      let e := env c.name
      if !e.clientOk then
        ⟨c :: rest, .errored "getting remote cluster client", [c.name]⟩
      else if (createKubewardenNamespace e).isSome then
        ⟨c :: rest, .errored "creating kubewarden namespace", [c.name]⟩
      else if !e.crdsOk then
        ⟨c :: rest, .errored "creating kubewarden CRDs", [c.name]⟩
      else if !e.controllerOk then
        ⟨c :: rest, .errored "installing kubewarden controller", [c.name]⟩
      else if !e.defaultsOk then
        ⟨c :: rest, .errored "installing kubewarden defaults", [c.name]⟩
      else if !e.patchOk then
        ⟨c :: rest, .errored "update cluster annotations", [c.name]⟩
      else
        let res := addonReconcileNormal env rest
        ⟨markInstalled c :: res.clusters, res.outcome, c.name :: res.trace⟩

/-- KubewardenAddonStatus (matchingClusters entries reduced to the
name/namespace pair of the referenced cluster). -/
structure AddonStatus where
  ready : Bool
  matchingClusters : List (String × String)
deriving DecidableEq, Repr

/-- Result of the full addon Reconcile: the persisted status, the store's
matched clusters after the pass, the outcome, and how many times the
deferred patch helper patched the resource. -/
structure AddonReconcileResult where
  status : AddonStatus
  matched : List Cluster
  outcome : RecOutcome
  patchCount : Nat
deriving DecidableEq, Repr

/-- Reconcile (KubewardenAddonReconciler), from the point where the resource
was fetched and the patch helper initialised: list the clusters matching the
ClusterSelector (a selector error marks the failure condition and returns
the error), set status.matchingClusters from the selection, return early on
a deletion timestamp, and otherwise run reconcileNormal; in every one of
these paths the deferred patchKubewardenAddon runs exactly once.  Note that
no path ever assigns status.ready. -/
def addonReconcile (selector : LabelSelector) (prev : AddonStatus)
    (ns : String) (store : List Cluster) (env : String → AddonEnv)
    (deletionRequested : Bool) : AddonReconcileResult :=
  match listClustersWithLabels store ns selector with
  | none => ⟨prev, [], .errored "invalid cluster selector", 1⟩
  | some clusters =>
    let st1 := { prev with
      matchingClusters := clusters.map (fun c : Cluster => (c.name, c.clusterNs)) }
    if deletionRequested then ⟨st1, clusters, .completed, 1⟩
    else
      let run := addonReconcileNormal env clusters
      ⟨st1, run.clusters, run.outcome, 1⟩

/-- A KubewardenAddon resource as the watch mapper sees it. -/
structure AddonResource where
  name : String
  resNs : String
  clusterSelector : LabelSelector
deriving DecidableEq, Repr

/-- A KubewardenPolicy resource as the watch mapper sees it. -/
structure PolicyResource where
  name : String
  resNs : String
  clusterSelector : LabelSelector
deriving DecidableEq, Repr

/-- The loop of ClusterToKubewardenAddonMapper over the listed addons: on a
selector parse error the Go code returns nil for the whole mapping, which
none models; otherwise the matching addons' keys accumulate in order. -/
def addonMapperLoop (cl : Cluster) : List AddonResource →
    Option (List (String × String))
  | [] => some []
  | a :: rest =>
    match labelSelectorAsSelector a.clusterSelector with
    | none => none
    | some reqs =>
      match addonMapperLoop cl rest with
      | none => none
      | some rs =>
        if selectorMatches reqs cl.labels then some ((a.resNs, a.name) :: rs)
        else some rs

/-- ClusterToKubewardenAddonMapper (KubewardenAddonReconciler): list the
addons of the cluster's namespace and emit a request per matching addon; a
selector parse error on any addon makes the whole mapping return nil (no
requests at all). -/
def clusterToKubewardenAddonMapper (cl : Cluster)
    (addons : List AddonResource) : List (String × String) :=
  match addonMapperLoop cl (addons.filter (fun a => a.resNs == cl.clusterNs)) with
  | none => []
  | some rs => rs

/-- clusterToKubewardenPolicy (KubewardenPolicyReconciler): list the
policies of the cluster's namespace and emit a request per matching policy;
a selector parse error on one policy skips that policy (continue) and the
loop carries on with the rest. -/
def clusterToKubewardenPolicy (cl : Cluster)
    (policies : List PolicyResource) : List (String × String) :=
  (policies.filter (fun p => p.resNs == cl.clusterNs)).filterMap
    (fun p =>
      match labelSelectorAsSelector p.clusterSelector with
      | none => none
      | some reqs =>
        if selectorMatches reqs cl.labels then some ((p.resNs, p.name))
        else none)

/-- Sample cluster for concrete runs: the production-labelled cluster from
the controller tests. -/
def clusterProd : Cluster :=
  ⟨"cluster-prod", "default",
    [("environment", "production"), ("tier", "backend")], [], true, true⟩

/-- Sample cluster: the development-labelled cluster. -/
def clusterDev : Cluster :=
  ⟨"cluster-dev", "default",
    [("environment", "development"), ("tier", "frontend")], [], true, true⟩

/-- Sample cluster: the staging-labelled cluster. -/
def clusterStaging : Cluster :=
  ⟨"cluster-staging", "default", [("environment", "staging")], [], true, true⟩

/-- Sample selector: environment In (production, staging). -/
def selectorEnvIn : LabelSelector :=
  ⟨[], [⟨"environment", .opIn, ["production", "staging"]⟩]⟩

/-- Sample policy spec used by the concrete runs: a cluster-wide
pod-privileged policy selecting env=test clusters. -/
def samplePolicySpec : KubewardenPolicySpec :=
  { clusterSelector := ⟨[("env", "test")], []⟩
    policyType := "ClusterAdmissionPolicy"
    policyName := "pod-privileged"
    targetNamespace := ""
    policyServer := "default"
    module := "registry://ghcr.io/kubewarden/policies/pod-privileged:v1.0.8"
    rules := [⟨[""], ["v1"], ["pods"], ["CREATE"], ""⟩]
    mutating := false
    settings := ""
    failurePolicy := ""
    matchConditions := [] }

/-- Sample workload cluster wl-a: ready, marker present, matching label. -/
def clusterWlA : Cluster :=
  ⟨"wl-a", "default", [("env", "test")],
    [(kubewardenInstalledKey, "true")], true, true⟩

/-- Sample workload cluster wl-b: ready, marker present, matching label. -/
def clusterWlB : Cluster :=
  ⟨"wl-b", "default", [("env", "test")],
    [(kubewardenInstalledKey, "true")], true, true⟩

/-- Sample workload cluster wl-c: control plane not ready. -/
def clusterWlC : Cluster :=
  ⟨"wl-c", "default", [("env", "test")], [], false, false⟩

/-- Policy oracle where every remote call succeeds and the remote policy
reports an active status. -/
def envPolicyAllOk : String → PolicyEnv :=
  fun _ => ⟨true, .notFound, true, true, some true, .ok⟩

/-- Policy oracle where every remote call succeeds but the remote policy
reports a not-yet-active status. -/
def envDeployedNotActive : String → PolicyEnv :=
  fun _ => ⟨true, .notFound, true, true, some false, .ok⟩

/-- The previous (empty) policy status used as the starting point of the
concrete runs. -/
def emptyPolicyStatus : PolicyStatus := ⟨false, [], []⟩

/-- Policy oracle for the deletion run: wl-a is reachable but its remote
delete fails; every other cluster's remote client cannot be obtained. -/
def envDeleteFailing : String → PolicyEnv :=
  fun n =>
    if n == "wl-a" then ⟨true, .found, true, true, some true, .failed "connection refused"⟩
    else ⟨false, .found, true, true, some true, .ok⟩

/-- Addon oracle where every install step succeeds on every cluster. -/
def envAddonAllOk : String → AddonEnv :=
  fun _ => ⟨true, .ok, true, true, true, true⟩

/-- Addon oracle where wl-a's remote client cannot be obtained and every
other cluster installs fine. -/
def envAddonClientFails : String → AddonEnv :=
  fun n =>
    if n == "wl-a" then ⟨false, .ok, true, true, true, true⟩
    else ⟨true, .ok, true, true, true, true⟩

/-- Sample workload cluster wl-f: ready, matching label, no marker yet. -/
def clusterFresh : Cluster :=
  ⟨"wl-f", "default", [("env", "test")], [], true, true⟩

/-- Sample workload cluster named wl-a that is ready but has no marker. -/
def clusterFreshA : Cluster :=
  ⟨"wl-a", "default", [("env", "test")], [], true, true⟩

/-- Addon resource whose selector cannot be parsed (In with no values). -/
def addonBadSelector : AddonResource :=
  ⟨"bad-addon", "default", ⟨[], [⟨"environment", .opIn, []⟩]⟩⟩

/-- Addon resource whose selector parses and matches the production
cluster. -/
def addonGoodSelector : AddonResource :=
  ⟨"good-addon", "default", ⟨[("environment", "production")], []⟩⟩

/-- Policy resource whose selector cannot be parsed (In with no values). -/
def policyBadSelector : PolicyResource :=
  ⟨"bad-policy", "default", ⟨[], [⟨"environment", .opIn, []⟩]⟩⟩

/-- Policy resource whose selector parses and matches the production
cluster. -/
def policyGoodSelector : PolicyResource :=
  ⟨"good-policy", "default", ⟨[("environment", "production")], []⟩⟩

/-- The predicate "this policy resource's selector parses and matches the
cluster's labels", used to describe the mapper outputs. -/
def policySelectorMatchesCluster (cl : Cluster) (p : PolicyResource) : Bool :=
  match labelSelectorAsSelector p.clusterSelector with
  | none => false
  | some reqs => selectorMatches reqs cl.labels

/-- The predicate "this addon resource's selector parses and matches the
cluster's labels", used to describe the mapper outputs. -/
def addonSelectorMatchesCluster (cl : Cluster) (a : AddonResource) : Bool :=
  match labelSelectorAsSelector a.clusterSelector with
  | none => false
  | some reqs => selectorMatches reqs cl.labels

/-- Modelled from the spec: the ready value the claim describes for the
addon resource — a logical AND of completion (the durable installed marker)
across all matched and ready clusters.  No function in the repository
computes this; the addon reconciler never assigns status.ready at all. -/
def claimedAddonReady (clusters : List Cluster) : Bool :=
  clusters.all (fun c =>
    !(addonClusterReady c)
      || hasAnnotationKey c.annos kubewardenInstalledKey)

/-- The previous (empty) addon status used as the starting point of the
concrete runs. -/
def emptyAddonStatus : AddonStatus := ⟨false, []⟩

/-- The env=test match-labels selector used by the addon runs. -/
def selectorEnvTest : LabelSelector := ⟨[("env", "test")], []⟩

theorem requirement_matches_of_matchLabel (ls : List (String × String))
    (k w : String) :
    Requirement.matches ⟨k, .opEq, [w]⟩ ls
      = (match lookupKV ls k with
          | some v => v == w
          | none => false) := by
  unfold Requirement.matches
  cases h : lookupKV ls k with
  | none => rfl
  | some u =>
    show [w].contains u = (u == w)
    cases hbe : u == w <;> simp [List.contains, List.elem, hbe]

theorem requirement_matches_of_expr (ls : List (String × String))
    (e : SelectorRequirementInput) (r : Requirement)
    (h : exprToRequirement e = some r) :
    r.matches ls = satisfiesMatchExpression ls e := by
  cases e with
  | mk key op values =>
    cases op <;> simp only [exprToRequirement] at h <;> split at h <;>
      first
        | (injection h with h; subst h; rfl)
        | simp at h

theorem selectorMatches_matchLabels (ml : List (String × String))
    (ls : List (String × String)) :
    selectorMatches (ml.map (fun kv => ⟨kv.1, .opEq, [kv.2]⟩)) ls
      = satisfiesMatchLabels ls ml := by
  induction ml with
  | nil => rfl
  | cons kv rest ih =>
    simp only [List.map_cons, selectorMatches, List.all_cons,
      satisfiesMatchLabels] at *
    rw [requirement_matches_of_matchLabel, ih]

theorem selectorMatches_exprs (es : List SelectorRequirementInput)
    (ers : List Requirement) (ls : List (String × String))
    (h : exprsToRequirements es = some ers) :
    selectorMatches ers ls = es.all (satisfiesMatchExpression ls) := by
  induction es generalizing ers with
  | nil =>
    simp only [exprsToRequirements] at h
    injection h with h
    subst h
    rfl
  | cons e rest ih =>
    simp only [exprsToRequirements] at h
    cases hr : exprToRequirement e with
    | none => rw [hr] at h; exact absurd h (by simp)
    | some r =>
      rw [hr] at h
      cases hrs : exprsToRequirements rest with
      | none => rw [hrs] at h; exact absurd h (by simp)
      | some rs =>
        rw [hrs] at h
        injection h with h
        subst h
        simp only [selectorMatches, List.all_cons] at *
        rw [requirement_matches_of_expr ls e r hr, ih rs hrs]

theorem selectorMatches_append (a b : List Requirement)
    (ls : List (String × String)) :
    selectorMatches (a ++ b) ls
      = (selectorMatches a ls && selectorMatches b ls) := by
  simp [selectorMatches, List.all_append]

/-- C2: for every cluster C and every label selector S that converts
successfully, cluster selection (getMatchingClusters, sharing
listClustersWithLabels's body) includes C in its result iff C is a stored
cluster of the listed namespace whose labels satisfy every match-labels
key/value pair of S and every match-expression of S (In/NotIn against the
value set, Exists/DoesNotExist by key presence), all conjoined; the result
is a sublist of the store, so the candidate order is preserved. -/
theorem c2_cluster_selection (store : List Cluster) (ns : String)
    (s : LabelSelector) (reqs : List Requirement)
    (h : labelSelectorAsSelector s = some reqs) :
    ∃ res, listClustersWithLabels store ns s = some res ∧
      getMatchingClusters store ns s = some res ∧
      res.Sublist store ∧
      ∀ c : Cluster, c ∈ res ↔
        (c ∈ store ∧ c.clusterNs = ns ∧
          satisfiesMatchLabels c.labels s.matchLabels = true ∧
          s.matchExpressions.all (satisfiesMatchExpression c.labels) = true) := by
  refine ⟨store.filter (fun c => c.clusterNs == ns && selectorMatches reqs c.labels),
    ?_, ?_, List.filter_sublist _, ?_⟩
  · unfold listClustersWithLabels
    rw [h]
  · unfold getMatchingClusters listClustersWithLabels
    rw [h]
  · intro c
    rw [List.mem_filter]
    unfold labelSelectorAsSelector at h
    cases hers : exprsToRequirements s.matchExpressions with
    | none => rw [hers] at h; exact absurd h (by simp)
    | some ers =>
      rw [hers] at h
      injection h with h
      subst h
      have hsel : selectorMatches
          (s.matchLabels.map (fun kv => ⟨kv.1, .opEq, [kv.2]⟩) ++ ers) c.labels
          = (satisfiesMatchLabels c.labels s.matchLabels
              && s.matchExpressions.all (satisfiesMatchExpression c.labels)) := by
        rw [selectorMatches_append, selectorMatches_matchLabels,
          selectorMatches_exprs s.matchExpressions ers c.labels hers]
      rw [hsel]
      simp [Bool.and_eq_true, beq_iff_eq, and_assoc]

/-- Witness for C2 at the test scenario: the In-operator selector over the
three sample clusters selects exactly the production and staging clusters,
in input order. -/
theorem c2_cluster_selection_witness :
    labelSelectorAsSelector selectorEnvIn
        = some [⟨"environment", .opIn, ["production", "staging"]⟩] ∧
    ∃ res, listClustersWithLabels [clusterProd, clusterDev, clusterStaging]
          "default" selectorEnvIn = some res ∧
      getMatchingClusters [clusterProd, clusterDev, clusterStaging]
          "default" selectorEnvIn = some res ∧
      res.Sublist [clusterProd, clusterDev, clusterStaging] ∧
      ∀ c : Cluster, c ∈ res ↔
        (c ∈ [clusterProd, clusterDev, clusterStaging] ∧ c.clusterNs = "default" ∧
          satisfiesMatchLabels c.labels selectorEnvIn.matchLabels = true ∧
          selectorEnvIn.matchExpressions.all
            (satisfiesMatchExpression c.labels) = true) :=
  ⟨by decide,
    c2_cluster_selection [clusterProd, clusterDev, clusterStaging] "default"
      selectorEnvIn [⟨"environment", .opIn, ["production", "staging"]⟩]
      (by decide)⟩

theorem convertOperations_id (ops : List String) : convertOperations ops = ops := by
  simp [convertOperations]

/-- C8: buildPolicySpec is a pure transform of the KubewardenPolicy spec
into the remote policy spec: policyServer, module and mutating are copied;
each rule's operations, apiGroups, apiVersions, resources and scope are
mapped one-for-one with an empty scope left unset (none); failurePolicy is
set only if explicitly non-empty; settings are copied verbatim only if
non-empty; matchConditions are copied one-for-one by name and expression.
Consequently converting any rule to the remote representation and back
preserves apiGroups, apiVersions, resources, operations and scope exactly. -/
theorem c8_buildPolicySpec_roundtrip (p : KubewardenPolicySpec) :
    (buildPolicySpec p).policyServer = p.policyServer ∧
    (buildPolicySpec p).module = p.module ∧
    (buildPolicySpec p).mutating = p.mutating ∧
    (buildPolicySpec p).rules = p.rules.map ruleToRemote ∧
    (∀ rule : PolicyRule, ruleToRemote rule =
      ⟨rule.operations, rule.apiGroups, rule.apiVersions, rule.resources,
        if rule.scope = "" then none else some rule.scope⟩) ∧
    (buildPolicySpec p).failurePolicy
      = (if p.failurePolicy = "" then none else some p.failurePolicy) ∧
    (buildPolicySpec p).settings
      = (if 0 < p.settings.length then p.settings else "") ∧
    (buildPolicySpec p).matchConditions
      = p.matchConditions.map (fun mc => ⟨mc.name, mc.expression⟩) ∧
    ∀ rule : PolicyRule, ruleFromRemote (ruleToRemote rule) = rule := by
  refine ⟨?_, ?_, ?_, ?_, ?_, ?_, ?_, ?_, ?_⟩
  · by_cases hf : p.failurePolicy = "" <;>
      by_cases hs : 0 < p.settings.length <;>
      simp [buildPolicySpec, hf, hs]
  · by_cases hf : p.failurePolicy = "" <;>
      by_cases hs : 0 < p.settings.length <;>
      simp [buildPolicySpec, hf, hs]
  · by_cases hf : p.failurePolicy = "" <;>
      by_cases hs : 0 < p.settings.length <;>
      simp [buildPolicySpec, hf, hs]
  · by_cases hf : p.failurePolicy = "" <;>
      by_cases hs : 0 < p.settings.length <;>
      simp [buildPolicySpec, hf, hs]
  · intro rule
    by_cases hsc : rule.scope = "" <;>
      simp [ruleToRemote, convertScope, convertOperations_id, hsc]
  · by_cases hf : p.failurePolicy = "" <;>
      by_cases hs : 0 < p.settings.length <;>
      simp [buildPolicySpec, hf, hs]
  · by_cases hf : p.failurePolicy = "" <;>
      by_cases hs : 0 < p.settings.length <;>
      simp [buildPolicySpec, hf, hs]
  · by_cases hf : p.failurePolicy = "" <;>
      by_cases hs : 0 < p.settings.length <;>
      simp [buildPolicySpec, hf, hs]
  · intro rule
    cases rule with
    | mk gs vs rs ops sc =>
      by_cases hsc : sc = "" <;>
        simp [ruleToRemote, ruleFromRemote, convertScope,
          convertOperations_id, hsc]

/-- C10: the installed-marker check is value-insensitive: whenever the
annotation map contains the key caapkw.kubewarden.io/installed with any
value (the empty string or "false" included), HasAnnotation holds, the
addon reconciler treats Kubewarden as already installed (returning success
without running any install step), and the policy reconciler's
addon-installed precondition is satisfied (the per-cluster step proceeds to
deploy and records an entry). -/
theorem c10_marker_value_insensitive (annos : List (String × String))
    (v : String)
    (h : lookupKV annos kubewardenInstalledKey = some v) :
    hasAnnotationKey annos kubewardenInstalledKey = true ∧
    (∀ (c : Cluster) (rest : List Cluster) (env : String → AddonEnv),
      c.annos = annos → addonClusterReady c = true →
      addonReconcileNormal env (c :: rest) = ⟨c :: rest, .completed, []⟩) ∧
    (∀ (c : Cluster) (env : String → PolicyEnv) (p : KubewardenPolicySpec),
      c.annos = annos → policyClusterReady c = true →
      (env c.name).clientOk = true →
      ((policyClusterStep p env c).1).isSome = true) := by
  have hk : hasAnnotationKey annos kubewardenInstalledKey = true := by
    unfold hasAnnotationKey
    rw [h]
    rfl
  refine ⟨hk, ?_, ?_⟩
  · intro c rest env hc hr
    have h1 : (!c.controlPlaneReady && !c.controlPlaneReadyCond) = false := by
      unfold addonClusterReady at hr
      cases hcp : c.controlPlaneReady <;>
        cases hcc : c.controlPlaneReadyCond <;> simp_all
    unfold addonReconcileNormal
    simp [h1, hc, hk]
  · intro c env p hc hr hcl
    unfold policyClusterStep
    simp only [hr, hc, hk, hcl, Bool.not_true, Bool.false_eq_true, if_false]
    split <;> simp

/-- Witness for C10 at the annotation value "false": key presence alone
triggers the already-installed treatment. -/
theorem c10_marker_value_insensitive_witness :
    lookupKV [(kubewardenInstalledKey, "false")] kubewardenInstalledKey
      = some "false" ∧
    (hasAnnotationKey [(kubewardenInstalledKey, "false")]
        kubewardenInstalledKey = true ∧
      (∀ (c : Cluster) (rest : List Cluster) (env : String → AddonEnv),
        c.annos = [(kubewardenInstalledKey, "false")] →
        addonClusterReady c = true →
        addonReconcileNormal env (c :: rest) = ⟨c :: rest, .completed, []⟩) ∧
      (∀ (c : Cluster) (env : String → PolicyEnv) (p : KubewardenPolicySpec),
        c.annos = [(kubewardenInstalledKey, "false")] →
        policyClusterReady c = true →
        (env c.name).clientOk = true →
        ((policyClusterStep p env c).1).isSome = true)) :=
  ⟨by decide,
    c10_marker_value_insensitive [(kubewardenInstalledKey, "false")] "false"
      (by decide)⟩

theorem policyClusterStep_snd (p : KubewardenPolicySpec)
    (env : String → PolicyEnv) (c : Cluster) :
    (policyClusterStep p env c).2 = clusterDeployOk p env c := by
  unfold policyClusterStep clusterDeployOk
  cases hr : policyClusterReady c
  · simp
  · cases ha : hasAnnotationKey c.annos kubewardenInstalledKey
    · simp
    · cases hcl : (env c.name).clientOk
      · simp
      · cases hd : deployPolicy (env c.name) p c with
        | mk st e => cases e <;> simp [hd]

theorem policyClusterLoop_allReady (p : KubewardenPolicySpec)
    (env : String → PolicyEnv) (cs : List Cluster) :
    (policyClusterLoop p env cs).2 = cs.all (clusterDeployOk p env) := by
  induction cs with
  | nil => rfl
  | cons c rest ih =>
    simp only [policyClusterLoop, List.all_cons]
    rw [policyClusterStep_snd, ih]

theorem policyClusterLoop_length_le (p : KubewardenPolicySpec)
    (env : String → PolicyEnv) (cs : List Cluster) :
    (policyClusterLoop p env cs).1.length
      ≤ (cs.filter (fun c => c.controlPlaneReady)).length := by
  induction cs with
  | nil => simp [policyClusterLoop]
  | cons c rest ih =>
    simp only [policyClusterLoop, List.length_append, List.filter_cons]
    cases hf : c.controlPlaneReady with
    | false =>
      have hstep : (policyClusterStep p env c).1 = none := by
        unfold policyClusterStep policyClusterReady
        simp [hf]
      simp only [hstep, Option.toList_none, List.length_nil, Nat.zero_add]
      simpa using ih
    | true =>
      have hle : (policyClusterStep p env c).1.toList.length ≤ 1 := by
        cases (policyClusterStep p env c).1 <;> simp
      simp only [if_true]
      calc (policyClusterStep p env c).1.toList.length
            + (policyClusterLoop p env rest).1.length
          ≤ 1 + (rest.filter (fun c => c.controlPlaneReady)).length :=
            Nat.add_le_add hle ih
        _ = (c :: rest.filter (fun c => c.controlPlaneReady)).length := by
            simp [Nat.add_comm]

/-- C1 counterexample: one matched cluster that is ready, carries the
installed marker, deploys without error, but whose remote policy is not yet
active.  The pass ends with status.ready = true even though the sole
deployment record has active = false, and the requeue happens after five
minutes regardless; the claim requires ready = false here. -/
theorem c1_counterexample :
    policyReconcileNormal samplePolicySpec "default" emptyPolicyStatus
        [clusterWlA] envDeployedNotActive true
      = (⟨true, [("wl-a", "default")],
          [⟨"wl-a", "default", "pod-privileged", "ClusterAdmissionPolicy",
            false, "Policy deployed but not yet active"⟩]⟩,
        .requeueAfterSec 300) := by
  decide

/-- C1 amended: on a pass with at least one matched cluster and a
successful status update, status.ready is true iff every matched cluster is
control-plane ready, carries the installed marker, yields a remote client,
and finishes the deploy and activation query without error — the reported
activation value itself is not required to be true — and the resource is
requeued after the fixed five-minute interval in all such passes. -/
theorem c1_amended_ready_iff_deploys_ok (p : KubewardenPolicySpec)
    (pns : String) (prev : PolicyStatus) (store : List Cluster)
    (env : String → PolicyEnv) (clusters : List Cluster)
    (h : getMatchingClusters store pns p.clusterSelector = some clusters)
    (hne : clusters ≠ []) :
    (policyReconcileNormal p pns prev store env true).1.ready
        = clusters.all (clusterDeployOk p env) ∧
    (policyReconcileNormal p pns prev store env true).2
        = .requeueAfterSec 300 := by
  have hne' : clusters.isEmpty = false := by
    cases clusters with
    | nil => exact absurd rfl hne
    | cons a l => rfl
  unfold policyReconcileNormal
  rw [h]
  simp only [hne', Bool.false_eq_true, if_false, if_true]
  exact ⟨policyClusterLoop_allReady p env clusters, by trivial⟩

/-- Witness for the amended C1 at the counterexample's input: the single
matched cluster deploys without error, so ready is true and the pass
requeues after five minutes. -/
theorem c1_amended_witness :
    getMatchingClusters [clusterWlA] "default"
        samplePolicySpec.clusterSelector = some [clusterWlA] ∧
    [clusterWlA] ≠ ([] : List Cluster) ∧
    ((policyReconcileNormal samplePolicySpec "default" emptyPolicyStatus
        [clusterWlA] envDeployedNotActive true).1.ready
          = [clusterWlA].all (clusterDeployOk samplePolicySpec
              envDeployedNotActive) ∧
      (policyReconcileNormal samplePolicySpec "default" emptyPolicyStatus
        [clusterWlA] envDeployedNotActive true).2 = .requeueAfterSec 300) :=
  ⟨by decide, by decide,
    c1_amended_ready_iff_deploys_ok samplePolicySpec "default"
      emptyPolicyStatus [clusterWlA] envDeployedNotActive [clusterWlA]
      (by decide) (by decide)⟩

/-- C3: on every policy reconcile pass, deployedPolicies gains an entry only
for matched clusters that pass the readiness (and installation) gates, so
its length never exceeds the number of matched control-plane-ready
clusters; and if any matched cluster is not control-plane-ready, the pass
ends with status.ready = false. -/
theorem c3_deployed_bounded_by_ready (p : KubewardenPolicySpec)
    (pns : String) (prev : PolicyStatus) (store : List Cluster)
    (env : String → PolicyEnv) (clusters : List Cluster)
    (h : getMatchingClusters store pns p.clusterSelector = some clusters) :
    (policyReconcileNormal p pns prev store env
        true).1.deployedPolicies.length
      ≤ (clusters.filter (fun c => c.controlPlaneReady)).length ∧
    ((∃ c ∈ clusters, c.controlPlaneReady = false) →
      (policyReconcileNormal p pns prev store env true).1.ready = false) := by
  unfold policyReconcileNormal
  rw [h]
  cases hne : clusters.isEmpty
  · simp only [hne, Bool.false_eq_true, if_false, if_true]
    constructor
    · exact policyClusterLoop_length_le p env clusters
    · rintro ⟨c, hc, hcf⟩
      show (policyClusterLoop p env clusters).2 = false
      rw [policyClusterLoop_allReady]
      cases hall : clusters.all (clusterDeployOk p env)
      · rfl
      · exfalso
        rw [List.all_eq_true] at hall
        have hck := hall c hc
        unfold clusterDeployOk policyClusterReady at hck
        rw [hcf] at hck
        simp at hck
  · simp only [hne, if_true]
    exact ⟨Nat.zero_le _, fun _ => by trivial⟩

/-- Witness for C3: three matched clusters of which two are
control-plane-ready; the pass records exactly two entries (at most the two
ready clusters) and ends not ready. -/
theorem c3_deployed_bounded_by_ready_witness :
    getMatchingClusters [clusterWlA, clusterWlB, clusterWlC] "default"
        samplePolicySpec.clusterSelector
      = some [clusterWlA, clusterWlB, clusterWlC] ∧
    ((policyReconcileNormal samplePolicySpec "default" emptyPolicyStatus
          [clusterWlA, clusterWlB, clusterWlC] envPolicyAllOk
          true).1.deployedPolicies.length
        ≤ ([clusterWlA, clusterWlB, clusterWlC].filter
            (fun c => c.controlPlaneReady)).length ∧
      ((∃ c ∈ [clusterWlA, clusterWlB, clusterWlC],
          c.controlPlaneReady = false) →
        (policyReconcileNormal samplePolicySpec "default" emptyPolicyStatus
          [clusterWlA, clusterWlB, clusterWlC] envPolicyAllOk
          true).1.ready = false)) :=
  ⟨by decide,
    c3_deployed_bounded_by_ready samplePolicySpec "default"
      emptyPolicyStatus [clusterWlA, clusterWlB, clusterWlC] envPolicyAllOk
      [clusterWlA, clusterWlB, clusterWlC] (by decide)⟩

theorem policyDeleteLoop_eq (env : String → PolicyEnv) (cs : List Cluster) :
    policyDeleteLoop env cs
      = (cs.filter (fun c => (env c.name).clientOk)).map
          (fun c : Cluster => c.name) := by
  induction cs with
  | nil => rfl
  | cons c rest ih =>
    simp only [policyDeleteLoop, List.filter_cons]
    cases hcl : (env c.name).clientOk <;> simp [hcl, ih]

/-- C7: on a policy deletion pass, the reconciler best-effort deletes the
remote policy on every currently matched cluster whose remote client can be
obtained; a not-found remote delete is success; and regardless of any
per-cluster failure (unreachable remote clients or failing deletes), the
pass completes without returning an error. -/
theorem c7_delete_best_effort (p : KubewardenPolicySpec) (pns : String)
    (store : List Cluster) (env : String → PolicyEnv)
    (clusters : List Cluster)
    (h : getMatchingClusters store pns p.clusterSelector = some clusters) :
    (policyReconcileDelete p pns store env).1 = .completed ∧
    (policyReconcileDelete p pns store env).2
      = (clusters.filter (fun c => (env c.name).clientOk)).map
          (fun c : Cluster => c.name) ∧
    (∀ e : PolicyEnv, e.policyDelete = .notFound → deletePolicy e p = none) := by
  unfold policyReconcileDelete
  rw [h]
  refine ⟨rfl, policyDeleteLoop_eq env clusters, ?_⟩
  intro e he
  unfold deletePolicy
  by_cases ht : p.policyType == "ClusterAdmissionPolicy" <;> simp [ht, he]

/-- Witness for C7: deleting over two matched clusters, one with a failing
remote delete and one with an unreachable remote client; the delete is
attempted exactly on the reachable cluster and the pass still completes
without error, and a not-found delete outcome yields success. -/
theorem c7_delete_best_effort_witness :
    getMatchingClusters [clusterWlA, clusterWlB] "default"
        samplePolicySpec.clusterSelector = some [clusterWlA, clusterWlB] ∧
    ((policyReconcileDelete samplePolicySpec "default"
        [clusterWlA, clusterWlB] envDeleteFailing).1 = .completed ∧
      (policyReconcileDelete samplePolicySpec "default"
          [clusterWlA, clusterWlB] envDeleteFailing).2
        = ([clusterWlA, clusterWlB].filter
            (fun c => (envDeleteFailing c.name).clientOk)).map
              (fun c : Cluster => c.name) ∧
      (∀ e : PolicyEnv, e.policyDelete = .notFound →
        deletePolicy e samplePolicySpec = none)) :=
  ⟨by decide,
    c7_delete_best_effort samplePolicySpec "default"
      [clusterWlA, clusterWlB] envDeleteFailing [clusterWlA, clusterWlB]
      (by decide)⟩

theorem lookupKV_insertKV (m : List (String × String)) (key value : String) :
    lookupKV (insertKV m key value) key = some value := by
  induction m with
  | nil => simp [insertKV, lookupKV]
  | cons kv rest ih =>
    cases kv with
    | mk k v =>
      simp only [insertKV]
      cases hk : k == key <;> simp [lookupKV, hk, ih]

theorem markInstalled_hasAnno (c : Cluster) :
    hasAnnotationKey (markInstalled c).annos kubewardenInstalledKey = true := by
  unfold markInstalled hasAnnotationKey
  simp [lookupKV_insertKV]

theorem markInstalled_ready (c : Cluster) :
    (markInstalled c).controlPlaneReady = c.controlPlaneReady ∧
    (markInstalled c).controlPlaneReadyCond = c.controlPlaneReadyCond :=
  ⟨rfl, rfl⟩

theorem addon_second_run_short_circuits (env : String → AddonEnv)
    (cs : List Cluster)
    (hout : (addonReconcileNormal env cs).outcome = .completed) :
    addonReconcileNormal env (addonReconcileNormal env cs).clusters
      = ⟨(addonReconcileNormal env cs).clusters, .completed, []⟩ := by
  cases cs with
  | nil => rfl
  | cons c rest =>
    cases h1 : (!c.controlPlaneReady && !c.controlPlaneReadyCond) with
    | true => simp [addonReconcileNormal, h1] at hout
    | false =>
      cases h2 : hasAnnotationKey c.annos kubewardenInstalledKey with
      | true => simp [addonReconcileNormal, h1, h2]
      | false =>
        cases h3 : (env c.name).clientOk with
        | false => simp [addonReconcileNormal, h1, h2, h3] at hout
        | true =>
          cases h4 : (createKubewardenNamespace (env c.name)).isSome with
          | true => simp [addonReconcileNormal, h1, h2, h3, h4] at hout
          | false =>
            cases h5 : (env c.name).crdsOk with
            | false => simp [addonReconcileNormal, h1, h2, h3, h4, h5] at hout
            | true =>
              cases h6 : (env c.name).controllerOk with
              | false =>
                simp [addonReconcileNormal, h1, h2, h3, h4, h5, h6] at hout
              | true =>
                cases h7 : (env c.name).defaultsOk with
                | false =>
                  simp [addonReconcileNormal, h1, h2, h3, h4, h5, h6,
                    h7] at hout
                | true =>
                  cases h8 : (env c.name).patchOk with
                  | false =>
                    simp [addonReconcileNormal, h1, h2, h3, h4, h5, h6, h7,
                      h8] at hout
                  | true =>
                    have hg1 : (!(markInstalled c).controlPlaneReady
                        && !(markInstalled c).controlPlaneReadyCond) = false := h1
                    simp [addonReconcileNormal, h1, h2, h3, h4, h5, h6, h7,
                      h8, hg1, markInstalled_hasAnno]

theorem addon_trace_skips_annotated (env : String → AddonEnv)
    (cs : List Cluster)
    (hnd : (cs.map (fun c : Cluster => c.name)).Nodup) :
    ∀ c ∈ cs, hasAnnotationKey c.annos kubewardenInstalledKey = true →
      c.name ∉ (addonReconcileNormal env cs).trace := by
  induction cs with
  | nil => intro c hc; simp at hc
  | cons c0 rest ih =>
    intro c hc hanno
    have hsplit : c = c0 ∨ c ∈ rest := by simpa using hc
    simp only [List.map_cons, List.nodup_cons] at hnd
    obtain ⟨hn0, hndrest⟩ := hnd
    cases h1 : (!c0.controlPlaneReady && !c0.controlPlaneReadyCond) with
    | true => simp [addonReconcileNormal, h1]
    | false =>
      cases h2 : hasAnnotationKey c0.annos kubewardenInstalledKey with
      | true => simp [addonReconcileNormal, h1, h2]
      | false =>
        have hc0 : c ≠ c0 := by
          intro he
          rw [he] at hanno
          rw [hanno] at h2
          exact Bool.noConfusion h2
        have hcr : c ∈ rest := hsplit.resolve_left hc0
        have hname : c.name ≠ c0.name := by
          intro he
          apply hn0
          rw [← he]
          exact List.mem_map_of_mem _ hcr
        cases h3 : (env c0.name).clientOk with
        | false => simp [addonReconcileNormal, h1, h2, h3, hname]
        | true =>
          cases h4 : (createKubewardenNamespace (env c0.name)).isSome with
          | true => simp [addonReconcileNormal, h1, h2, h3, h4, hname]
          | false =>
            cases h5 : (env c0.name).crdsOk with
            | false =>
              simp [addonReconcileNormal, h1, h2, h3, h4, h5, hname]
            | true =>
              cases h6 : (env c0.name).controllerOk with
              | false =>
                simp [addonReconcileNormal, h1, h2, h3, h4, h5, h6, hname]
              | true =>
                cases h7 : (env c0.name).defaultsOk with
                | false =>
                  simp [addonReconcileNormal, h1, h2, h3, h4, h5, h6, h7,
                    hname]
                | true =>
                  cases h8 : (env c0.name).patchOk with
                  | false =>
                    simp [addonReconcileNormal, h1, h2, h3, h4, h5, h6, h7,
                      h8, hname]
                  | true =>
                    have hrec := ih hndrest c hcr hanno
                    simp [addonReconcileNormal, h1, h2, h3, h4, h5, h6, h7,
                      h8, hname, hrec]

/-- C4: the addon install sequence is idempotent.  An already-annotated
matched cluster never has install steps run against it; when the loop
reaches an annotated (and ready) cluster it returns success immediately;
and whenever a pass completes successfully, running the reconcile again on
the resulting store changes nothing, produces no error, and attempts no
install step (the second pass short-circuits at the marker check). -/
theorem c4_install_idempotent (clusters : List Cluster)
    (env : String → AddonEnv)
    (hnd : (clusters.map (fun c : Cluster => c.name)).Nodup) :
    (∀ c ∈ clusters,
      hasAnnotationKey c.annos kubewardenInstalledKey = true →
      c.name ∉ (addonReconcileNormal env clusters).trace) ∧
    (∀ (c : Cluster) (rest : List Cluster), clusters = c :: rest →
      addonClusterReady c = true →
      hasAnnotationKey c.annos kubewardenInstalledKey = true →
      addonReconcileNormal env clusters = ⟨clusters, .completed, []⟩) ∧
    ((addonReconcileNormal env clusters).outcome = .completed →
      addonReconcileNormal env (addonReconcileNormal env clusters).clusters
        = ⟨(addonReconcileNormal env clusters).clusters, .completed, []⟩) := by
  refine ⟨addon_trace_skips_annotated env clusters hnd, ?_,
    fun h => addon_second_run_short_circuits env clusters h⟩
  intro c rest hceq hready hanno
  subst hceq
  have h1 : (!c.controlPlaneReady && !c.controlPlaneReadyCond) = false := by
    unfold addonClusterReady at hready
    cases hcp : c.controlPlaneReady <;>
      cases hcc : c.controlPlaneReadyCond <;> simp_all
  simp [addonReconcileNormal, h1, hanno]

/-- Witness for C4: a store holding the already-annotated wl-a followed by
the fresh wl-f; the pass skips wl-a (success, empty trace), and a completed
pass rerun on its own output is unchanged. -/
theorem c4_install_idempotent_witness :
    ([clusterWlA, clusterFresh].map (fun c : Cluster => c.name)).Nodup ∧
    ((∀ c ∈ [clusterWlA, clusterFresh],
        hasAnnotationKey c.annos kubewardenInstalledKey = true →
        c.name ∉ (addonReconcileNormal envAddonAllOk
          [clusterWlA, clusterFresh]).trace) ∧
      (∀ (c : Cluster) (rest : List Cluster),
        [clusterWlA, clusterFresh] = c :: rest →
        addonClusterReady c = true →
        hasAnnotationKey c.annos kubewardenInstalledKey = true →
        addonReconcileNormal envAddonAllOk [clusterWlA, clusterFresh]
          = ⟨[clusterWlA, clusterFresh], .completed, []⟩) ∧
      ((addonReconcileNormal envAddonAllOk
          [clusterWlA, clusterFresh]).outcome = .completed →
        addonReconcileNormal envAddonAllOk
            (addonReconcileNormal envAddonAllOk
              [clusterWlA, clusterFresh]).clusters
          = ⟨(addonReconcileNormal envAddonAllOk
              [clusterWlA, clusterFresh]).clusters, .completed, []⟩)) :=
  ⟨by decide,
    c4_install_idempotent [clusterWlA, clusterFresh] envAddonAllOk
      (by decide)⟩

/-- C5 counterexample: two matched clusters, the first of which fails at
remote-client acquisition.  The addon pass returns that error immediately:
the second cluster is not processed (no install attempt appears in the
trace, its state is unchanged) and no per-cluster failure record exists —
contradicting the claim that per-cluster errors are collected without
aborting the remaining clusters. -/
theorem c5_counterexample :
    addonReconcileNormal envAddonClientFails [clusterFreshA, clusterFresh]
      = ⟨[clusterFreshA, clusterFresh],
          .errored "getting remote cluster client", ["wl-a"]⟩ := by
  decide

/-- C5 amended: in the addon reconciler, a failing install step for one
cluster aborts the whole pass with that error: the pass consists of a fully
installed prefix, the failing cluster (the last one touched by install
steps), and an untouched suffix that is never processed; no per-cluster
failure record is kept. -/
theorem c5_amended_error_aborts_pass (cs : List Cluster)
    (env : String → AddonEnv) (cs' : List Cluster) (m : String)
    (tr : List String)
    (h : addonReconcileNormal env cs = ⟨cs', .errored m, tr⟩) :
    ∃ pre fc post, cs = pre ++ fc :: post ∧
      cs' = pre.map markInstalled ++ fc :: post ∧
      tr = pre.map (fun c : Cluster => c.name) ++ [fc.name] := by
  induction cs generalizing cs' tr with
  | nil => simp [addonReconcileNormal] at h
  | cons c rest ih =>
    cases h1 : (!c.controlPlaneReady && !c.controlPlaneReadyCond) with
    | true => simp [addonReconcileNormal, h1] at h
    | false =>
      cases h2 : hasAnnotationKey c.annos kubewardenInstalledKey with
      | true => simp [addonReconcileNormal, h1, h2] at h
      | false =>
        cases h3 : (env c.name).clientOk with
        | false =>
          simp only [addonReconcileNormal, h1, h2, h3, Bool.not_false,
            Bool.not_true, Bool.false_eq_true, if_false, if_true,
            AddonRunResult.mk.injEq] at h
          obtain ⟨hc', _, htr⟩ := h
          exact ⟨[], c, rest, by simp, by simp [← hc'], by simp [← htr]⟩
        | true =>
          cases h4 : (createKubewardenNamespace (env c.name)).isSome with
          | true =>
            simp only [addonReconcileNormal, h1, h2, h3, h4, Bool.not_false,
              Bool.not_true, Bool.false_eq_true, if_false, if_true,
              AddonRunResult.mk.injEq] at h
            obtain ⟨hc', _, htr⟩ := h
            exact ⟨[], c, rest, by simp, by simp [← hc'], by simp [← htr]⟩
          | false =>
            cases h5 : (env c.name).crdsOk with
            | false =>
              simp only [addonReconcileNormal, h1, h2, h3, h4, h5,
                Bool.not_false, Bool.not_true, Bool.false_eq_true, if_false,
                if_true, AddonRunResult.mk.injEq] at h
              obtain ⟨hc', _, htr⟩ := h
              exact ⟨[], c, rest, by simp, by simp [← hc'], by simp [← htr]⟩
            | true =>
              cases h6 : (env c.name).controllerOk with
              | false =>
                simp only [addonReconcileNormal, h1, h2, h3, h4, h5, h6,
                  Bool.not_false, Bool.not_true, Bool.false_eq_true,
                  if_false, if_true, AddonRunResult.mk.injEq] at h
                obtain ⟨hc', _, htr⟩ := h
                exact ⟨[], c, rest, by simp, by simp [← hc'], by simp [← htr]⟩
              | true =>
                cases h7 : (env c.name).defaultsOk with
                | false =>
                  simp only [addonReconcileNormal, h1, h2, h3, h4, h5, h6,
                    h7, Bool.not_false, Bool.not_true, Bool.false_eq_true,
                    if_false, if_true, AddonRunResult.mk.injEq] at h
                  obtain ⟨hc', _, htr⟩ := h
                  exact ⟨[], c, rest, by simp, by simp [← hc'],
                    by simp [← htr]⟩
                | true =>
                  cases h8 : (env c.name).patchOk with
                  | false =>
                    simp only [addonReconcileNormal, h1, h2, h3, h4, h5, h6,
                      h7, h8, Bool.not_false, Bool.not_true,
                      Bool.false_eq_true, if_false, if_true,
                      AddonRunResult.mk.injEq] at h
                    obtain ⟨hc', _, htr⟩ := h
                    exact ⟨[], c, rest, by simp, by simp [← hc'],
                      by simp [← htr]⟩
                  | true =>
                    simp only [addonReconcileNormal, h1, h2, h3, h4, h5, h6,
                      h7, h8, Bool.not_false, Bool.not_true,
                      Bool.false_eq_true, if_false, if_true,
                      AddonRunResult.mk.injEq] at h
                    obtain ⟨hc', hout, htr⟩ := h
                    have hres : addonReconcileNormal env rest
                        = ⟨(addonReconcileNormal env rest).clusters,
                            .errored m,
                            (addonReconcileNormal env rest).trace⟩ := by
                      rw [← hout]
                    obtain ⟨pre, fc, post, hcs, hcs', htr'⟩ := ih _ _ hres
                    refine ⟨c :: pre, fc, post, by rw [List.cons_append, ← hcs],
                      ?_, ?_⟩
                    · rw [← hc']
                      rw [show (addonReconcileNormal env rest).clusters
                          = pre.map markInstalled ++ fc :: post from hcs']
                      simp
                    · rw [← htr]
                      rw [show (addonReconcileNormal env rest).trace
                          = pre.map (fun c : Cluster => c.name) ++ [fc.name]
                          from htr']
                      simp

/-- Witness for the amended C5 at the counterexample input: the pass
decomposes as an empty installed prefix, the failing wl-a, and the untouched
wl-f suffix. -/
theorem c5_amended_witness :
    addonReconcileNormal envAddonClientFails [clusterFreshA, clusterFresh]
      = ⟨[clusterFreshA, clusterFresh],
          .errored "getting remote cluster client", ["wl-a"]⟩ ∧
    ∃ pre fc post, [clusterFreshA, clusterFresh] = pre ++ fc :: post ∧
      [clusterFreshA, clusterFresh] = pre.map markInstalled ++ fc :: post ∧
      ["wl-a"] = pre.map (fun c : Cluster => c.name) ++ [fc.name] :=
  ⟨by decide,
    c5_amended_error_aborts_pass [clusterFreshA, clusterFresh]
      envAddonClientFails [clusterFreshA, clusterFresh]
      "getting remote cluster client" ["wl-a"] (by decide)⟩

/-- C6 counterexample: the cluster-change mapper of the ADDON reconciler
returns no requests at all when one listed resource's selector fails to
parse, even though another listed resource's selector parses and matches
the cluster — the claim requires a request for the well-formed resource.
(The policy mapper, by contrast, does skip and continue.) -/
theorem c6_counterexample :
    clusterToKubewardenAddonMapper clusterProd
        [addonBadSelector, addonGoodSelector] = [] ∧
    labelSelectorAsSelector addonGoodSelector.clusterSelector
      = some [⟨"environment", .opEq, ["production"]⟩] ∧
    selectorMatches [⟨"environment", .opEq, ["production"]⟩]
      clusterProd.labels = true ∧
    clusterToKubewardenPolicy clusterProd
        [policyBadSelector, policyGoodSelector]
      = [("default", "good-policy")] := by
  decide

theorem policy_mapper_arm (cl : Cluster) (p : PolicyResource) :
    (match labelSelectorAsSelector p.clusterSelector with
      | none => none
      | some reqs =>
        if selectorMatches reqs cl.labels then some ((p.resNs, p.name))
        else none)
      = (if policySelectorMatchesCluster cl p = true
          then some ((p.resNs, p.name)) else none) := by
  unfold policySelectorMatchesCluster
  cases labelSelectorAsSelector p.clusterSelector with
  | none => simp
  | some reqs => rfl

theorem policy_filterMap_as_filter_map (cl : Cluster)
    (l : List PolicyResource) :
    l.filterMap (fun p =>
        match labelSelectorAsSelector p.clusterSelector with
        | none => none
        | some reqs =>
          if selectorMatches reqs cl.labels then some ((p.resNs, p.name))
          else none)
      = (l.filter (policySelectorMatchesCluster cl)).map
          (fun p => (p.resNs, p.name)) := by
  induction l with
  | nil => rfl
  | cons p rest ih =>
    rw [List.filterMap_cons, List.filter_cons, policy_mapper_arm]
    cases hm : policySelectorMatchesCluster cl p <;> simp [hm, ih]

theorem addonMapperLoop_none (cl : Cluster) (l : List AddonResource)
    (h : ∃ a ∈ l, labelSelectorAsSelector a.clusterSelector = none) :
    addonMapperLoop cl l = none := by
  induction l with
  | nil => simp at h
  | cons a rest ih =>
    obtain ⟨b, hb, hbad⟩ := h
    cases hp : labelSelectorAsSelector a.clusterSelector with
    | none => simp [addonMapperLoop, hp]
    | some reqs =>
      have hbr : b ∈ rest := by
        rcases (by simpa using hb : b = a ∨ b ∈ rest) with he | hr
        · rw [he] at hbad
          rw [hbad] at hp
          exact Option.noConfusion hp
        · exact hr
      simp [addonMapperLoop, hp, ih ⟨b, hbr, hbad⟩]

theorem addonMapperLoop_some (cl : Cluster) (l : List AddonResource)
    (h : ∀ a ∈ l, (labelSelectorAsSelector a.clusterSelector).isSome = true) :
    addonMapperLoop cl l
      = some ((l.filter (addonSelectorMatchesCluster cl)).map
          (fun a => (a.resNs, a.name))) := by
  induction l with
  | nil => rfl
  | cons a rest ih =>
    have ha := h a (by simp)
    cases hp : labelSelectorAsSelector a.clusterSelector with
    | none => rw [hp] at ha; exact Bool.noConfusion ha
    | some reqs =>
      have hrest := ih (fun b hb => h b (by simp [hb]))
      simp only [addonMapperLoop, hp, hrest, List.filter_cons,
        addonSelectorMatchesCluster]
      cases hm : selectorMatches reqs cl.labels <;> simp [hm]

/-- C6 amended: the POLICY mapper emits, in listing order, one request per
policy of the cluster's namespace whose selector parses and matches the
cluster's labels, skipping (and only skipping) the policies whose selector
fails to parse; the ADDON mapper behaves that way only when every listed
addon's selector parses — a single parse error makes it return no requests
at all. -/
theorem c6_amended_mapper_error_handling (cl : Cluster)
    (policies : List PolicyResource) (addons : List AddonResource) :
    clusterToKubewardenPolicy cl policies
      = ((policies.filter (fun p => p.resNs == cl.clusterNs)).filter
          (policySelectorMatchesCluster cl)).map
            (fun p => (p.resNs, p.name)) ∧
    ((∃ a ∈ addons.filter (fun a => a.resNs == cl.clusterNs),
        labelSelectorAsSelector a.clusterSelector = none) →
      clusterToKubewardenAddonMapper cl addons = []) ∧
    ((∀ a ∈ addons.filter (fun a => a.resNs == cl.clusterNs),
        (labelSelectorAsSelector a.clusterSelector).isSome = true) →
      clusterToKubewardenAddonMapper cl addons
        = ((addons.filter (fun a => a.resNs == cl.clusterNs)).filter
            (addonSelectorMatchesCluster cl)).map
              (fun a => (a.resNs, a.name))) := by
  refine ⟨?_, ?_, ?_⟩
  · unfold clusterToKubewardenPolicy
    exact policy_filterMap_as_filter_map cl _
  · intro h
    unfold clusterToKubewardenAddonMapper
    rw [addonMapperLoop_none cl _ h]
  · intro h
    unfold clusterToKubewardenAddonMapper
    rw [addonMapperLoop_some cl _ h]

/-- Witness for the amended C6 at the counterexample input: one bad and one
good resource of each kind in the cluster's namespace. -/
theorem c6_amended_witness :
    (clusterToKubewardenPolicy clusterProd
        [policyBadSelector, policyGoodSelector]
      = (([policyBadSelector, policyGoodSelector].filter
          (fun p => p.resNs == clusterProd.clusterNs)).filter
            (policySelectorMatchesCluster clusterProd)).map
              (fun p => (p.resNs, p.name)) ∧
    ((∃ a ∈ [addonBadSelector, addonGoodSelector].filter
          (fun a => a.resNs == clusterProd.clusterNs),
        labelSelectorAsSelector a.clusterSelector = none) →
      clusterToKubewardenAddonMapper clusterProd
        [addonBadSelector, addonGoodSelector] = []) ∧
    ((∀ a ∈ [addonBadSelector, addonGoodSelector].filter
          (fun a => a.resNs == clusterProd.clusterNs),
        (labelSelectorAsSelector a.clusterSelector).isSome = true) →
      clusterToKubewardenAddonMapper clusterProd
          [addonBadSelector, addonGoodSelector]
        = (([addonBadSelector, addonGoodSelector].filter
            (fun a => a.resNs == clusterProd.clusterNs)).filter
              (addonSelectorMatchesCluster clusterProd)).map
                (fun a => (a.resNs, a.name)))) ∧
    clusterToKubewardenAddonMapper clusterProd
      [addonBadSelector, addonGoodSelector] = [] :=
  ⟨c6_amended_mapper_error_handling clusterProd
      [policyBadSelector, policyGoodSelector]
      [addonBadSelector, addonGoodSelector],
    by decide⟩

/-- C9 counterexample: a pass over a store whose single matched cluster is
ready and fully installed.  The claimed "ready = AND of completion over all
matched and ready clusters" is true here, yet the persisted status keeps
ready = false: the addon reconciler never assigns status.ready. -/
theorem c9_counterexample :
    (addonReconcile selectorEnvTest emptyAddonStatus "default" [clusterWlA]
        envAddonAllOk false).status.ready = false ∧
    claimedAddonReady [clusterWlA] = true ∧
    (addonReconcile selectorEnvTest emptyAddonStatus "default" [clusterWlA]
        envAddonAllOk false).outcome = .completed := by
  decide

/-- C9 amended: each addon reconcile pass patches the resource exactly once
via the deferred patch helper; when the selector parses, the pass sets
status.matchingClusters from the selection result; but status.ready is
never assigned — it keeps its previous value instead of the claimed AND of
per-cluster completion. -/
theorem c9_amended_status_aggregation (selector : LabelSelector)
    (prev : AddonStatus) (ns : String) (store : List Cluster)
    (env : String → AddonEnv) (del : Bool) :
    (addonReconcile selector prev ns store env del).patchCount = 1 ∧
    (addonReconcile selector prev ns store env del).status.ready
      = prev.ready ∧
    (∀ clusters, listClustersWithLabels store ns selector = some clusters →
      (addonReconcile selector prev ns store env del).status.matchingClusters
        = clusters.map (fun c : Cluster => (c.name, c.clusterNs))) := by
  cases hl : listClustersWithLabels store ns selector with
  | none =>
    unfold addonReconcile
    rw [hl]
    refine ⟨rfl, rfl, ?_⟩
    intro cs hcs
    exact Option.noConfusion hcs
  | some cs =>
    unfold addonReconcile
    rw [hl]
    cases del with
    | true =>
      refine ⟨rfl, rfl, ?_⟩
      intro cs' hcs'
      injection hcs' with hcs'
      rw [← hcs']
      rfl
    | false =>
      refine ⟨rfl, rfl, ?_⟩
      intro cs' hcs'
      injection hcs' with hcs'
      rw [← hcs']
      rfl

/-- Witness for the amended C9 at the counterexample's input. -/
theorem c9_amended_witness :
    (addonReconcile selectorEnvTest emptyAddonStatus "default" [clusterWlA]
        envAddonAllOk false).patchCount = 1 ∧
    (addonReconcile selectorEnvTest emptyAddonStatus "default" [clusterWlA]
        envAddonAllOk false).status.ready = emptyAddonStatus.ready ∧
    (∀ clusters,
      listClustersWithLabels [clusterWlA] "default" selectorEnvTest
          = some clusters →
      (addonReconcile selectorEnvTest emptyAddonStatus "default"
          [clusterWlA] envAddonAllOk false).status.matchingClusters
        = clusters.map (fun c : Cluster => (c.name, c.clusterNs))) :=
  c9_amended_status_aggregation selectorEnvTest emptyAddonStatus "default"
    [clusterWlA] envAddonAllOk false

end Caapkw
